import Mathlib

/-!
Shallow embedding of crypto/ec/oqs_meth.c: the OQS (Picnic L1 FS) key-method
adapter binding a post-quantum signature engine into the OpenSSL EVP_PKEY
ASN.1 / pkey method tables. Buffers are modelled as lists of bytes
(List Nat), machine integers as Int / Nat, fallible external calls as
explicit Option / Bool parameters, and the error-stack / allocator side
effects as explicit lists of events in the results.
-/

set_option autoImplicit false

namespace OQS

/-- Host registry NID for the picnicL1FS scheme. The numeric value comes
from the object registry of the surrounding library; only its identity
matters here. -/
def NID_picnicL1FS : Int := 1063

/-- Engine-side algorithm selector for Picnic L1 FS (external enum value). -/
def OQS_SIG_alg_picnic_L1_FS : Int := 1

/-- ASN.1 parameter-type value meaning the parameters field is absent. -/
def V_ASN1_UNDEF : Int := -1

/-- Host error-stack reason code ERR_R_FATAL. -/
def ERR_R_FATAL : Nat := 64

/-- Host error-stack reason code ERR_R_MALLOC_FAILURE. -/
def ERR_R_MALLOC_FAILURE : Nat := 65

/-- The engine handle OQS_SIG: reports the algorithm-specific sizes, and
owns (or not) an attached randomness source. -/
structure OQS_SIG where
  priv_key_len : Nat
  pub_key_len : Nat
  max_sig_len : Nat
  estimated_classical_security : Nat
  rand : Bool
  deriving DecidableEq, Repr

/-- Modelled from the spec: the external engine instance for Picnic L1 FS,
with its fixed reported sizes and an attached per-instance RNG. The engine
itself is an external collaborator; only the sizes it reports matter. -/
def picnicL1FS_sig : OQS_SIG :=
  { priv_key_len := 49
    pub_key_len := 33
    max_sig_len := 34036
    estimated_classical_security := 128
    rand := true }

/-- Modelled from the spec: the external engine constructor OQS_SIG_new.
It instantiates an engine for a recognized algorithm selector and fails
(returns NULL) for any other selector, including the -1 produced by
get_oqs_alg_id for unknown NIDs. -/
def OQS_SIG_new (algId : Int) : Option OQS_SIG :=
  if algId = OQS_SIG_alg_picnic_L1_FS then some picnicL1FS_sig else none

/-- The OQS_KEY record: engine handle plus public / private key buffers.
All three fields are optional because partially constructed records exist
on the error paths of oqs_key_init. -/
structure OQS_KEY where
  s : Option OQS_SIG
  pubkey : Option (List Nat)
  privkey : Option (List Nat)
  deriving DecidableEq, Repr

/-- oqs_key_type_t from the source. -/
inductive oqs_key_type_t where
  | KEY_TYPE_PUBLIC
  | KEY_TYPE_PRIVATE
  deriving DecidableEq, Repr

/-- get_oqs_alg_id: maps OpenSSL NIDs to OQS selectors; unknown NIDs map
to -1. -/
def get_oqs_alg_id (openssl_nid : Int) : Int :=
  if openssl_nid = NID_picnicL1FS then OQS_SIG_alg_picnic_L1_FS else -1

/-- get_oqs_security_bits: static security-level lookup by NID. -/
def get_oqs_security_bits (openssl_nid : Int) : Int :=
  if openssl_nid = NID_picnicL1FS then 128 else -1

/-- The deallocation / erasure events performed by oqs_pkey_ctx_free, in
order. secure_clear_free_priv carries the length argument passed to
OPENSSL_secure_clear_free for the private-key buffer. -/
inductive FreeAction where
  | rand_free
  | sig_free
  | secure_clear_free_priv (len : Nat)
  | pub_free
  | key_free
  deriving DecidableEq, Repr

/-- oqs_pkey_ctx_free: teardown of an OQS_KEY, returned as the ordered list
of deallocation events it performs. A NULL key performs nothing. The
private-key length is read from the engine before the engine is freed
(privkey_len stays 0 when no engine is present). -/
def oqs_pkey_ctx_free (key : Option OQS_KEY) : List FreeAction :=
  match key with
  | none => []
  | some k =>
    let privkey_len : Nat :=
      match k.s with
      | some s => s.priv_key_len
      | none => 0
    (match k.s with
     | some s =>
       (if s.rand then [FreeAction.rand_free] else []) ++ [FreeAction.sig_free]
     | none => []) ++
    (match k.privkey with
     | some _ => [FreeAction.secure_clear_free_priv privkey_len]
     | none => []) ++
    (match k.pubkey with
     | some _ => [FreeAction.pub_free]
     | none => []) ++
    [FreeAction.key_free]

/-- oqs_key_init: builds an OQS_KEY for a NID. OPENSSL_zalloc and
OQS_RAND_new are modelled as succeeding; the engine constructor is the
fallible step (it rejects the -1 selector of unknown NIDs). Freshly
allocated buffers are modelled as zero-filled lists of the engine-reported
lengths. Returns the record (or none on failure, after routing through the
teardown path) together with the error-stack entries pushed. -/
def oqs_key_init (nid : Int) (keytype : oqs_key_type_t) :
    Option OQS_KEY × List Nat :=
  match OQS_SIG_new (get_oqs_alg_id nid) with
  | none => (none, [ERR_R_FATAL])
  | some s =>
    let pub := List.replicate s.pub_key_len 0
    if keytype = oqs_key_type_t.KEY_TYPE_PRIVATE then
      (some { s := some s, pubkey := some pub
              privkey := some (List.replicate s.priv_key_len 0) }, [])
    else
      (some { s := some s, pubkey := some pub, privkey := none }, [])

/-- Modelled from the spec: the external ASN.1 octet-string encoder, a
length-prefixed byte-string codec. -/
def i2d_ASN1_OCTET_STRING (data : List Nat) : List Nat :=
  data.length :: data

/-- Modelled from the spec: the external ASN.1 octet-string decoder;
inverse of the encoder, tolerating trailing bytes, failing on a
truncated input. -/
def d2i_ASN1_OCTET_STRING (enc : List Nat) : Option (List Nat) :=
  match enc with
  | [] => none
  | n :: rest => if n ≤ rest.length then some (rest.take n) else none

/-- The view of an X509_PUBKEY container exposed by X509_PUBKEY_get0_param:
the raw key bytes (none models p == NULL) and the algorithm-identifier
structure (none models palg == NULL; some ptype models a present structure
whose parameter type is ptype). -/
structure X509_PUBKEY_data where
  key : Option (List Nat)
  palg : Option Int
  deriving DecidableEq, Repr

/-- The view of a PKCS8_PRIV_KEY_INFO container exposed by PKCS8_pkey_get0:
the payload bytes and the optional algorithm-identifier structure. -/
structure PKCS8_data where
  bytes : List Nat
  palg : Option Int
  deriving DecidableEq, Repr

/-- Result of a decode-style table entry: the 0/1 return code, the OQS_KEY
assigned into the EVP_PKEY on success, and the error-stack entries pushed
by this module. -/
structure DecodeResult where
  ret : Int
  key : Option OQS_KEY
  errs : List Nat
  deriving DecidableEq, Repr

/-- Continuation of oqs_pub_decode after the parameters-absent check:
instantiate a public-only record, check the byte length against the
engine-reported public-key length, copy the bytes in. -/
def oqs_pub_decode_rest (id : Int) (p : List Nat) : DecodeResult :=
  match oqs_key_init id oqs_key_type_t.KEY_TYPE_PUBLIC with
  | (none, errs) => { ret := 0, key := none, errs := errs ++ [ERR_R_FATAL] }
  | (some k, errs) =>
    match k.s with
    | none => { ret := 0, key := none, errs := errs ++ [ERR_R_FATAL] }
    | some s =>
      if p.length ≠ s.pub_key_len then
        { ret := 0, key := none, errs := errs ++ [ERR_R_FATAL] }
      else
        { ret := 1, key := some { k with pubkey := some p }, errs := errs }

/-- oqs_pub_decode: the decode-public table entry. The input none models
an X509_PUBKEY on which X509_PUBKEY_get0_param fails (that path returns 0
with no error pushed by this module). A NULL byte pointer is rejected;
a present algorithm structure must carry absent parameters. -/
def oqs_pub_decode (id : Int) (pubkey : Option X509_PUBKEY_data) :
    DecodeResult :=
  match pubkey with
  | none => { ret := 0, key := none, errs := [] }
  | some pk =>
    match pk.key with
    | none => { ret := 0, key := none, errs := [ERR_R_FATAL] }
    | some p =>
      match pk.palg with
      | some ptype =>
        if ptype ≠ V_ASN1_UNDEF then
          { ret := 0, key := none, errs := [ERR_R_FATAL] }
        else
          oqs_pub_decode_rest id p
      | none => oqs_pub_decode_rest id p

/-- Continuation of oqs_priv_decode after the parameters-absent check:
instantiate a private-capable record, check the unwrapped payload length
against priv_key_len + pub_key_len, split the payload at the
private-key-length boundary. -/
def oqs_priv_decode_rest (id : Int) (p : List Nat) (plen : Nat) :
    DecodeResult :=
  match oqs_key_init id oqs_key_type_t.KEY_TYPE_PRIVATE with
  | (none, errs) => { ret := 0, key := none, errs := errs ++ [ERR_R_FATAL] }
  | (some k, errs) =>
    match k.s with
    | none => { ret := 0, key := none, errs := errs ++ [ERR_R_FATAL] }
    | some s =>
      if plen ≠ s.priv_key_len + s.pub_key_len then
        { ret := 0, key := none, errs := errs ++ [ERR_R_FATAL] }
      else
        { ret := 1
          key := some { k with
            privkey := some (p.take s.priv_key_len)
            pubkey := some ((p.drop s.priv_key_len).take s.pub_key_len) }
          errs := errs }

/-- oqs_priv_decode: the decode-private table entry. The input none models
a PKCS8_PRIV_KEY_INFO on which PKCS8_pkey_get0 fails (returns 0 with no
error pushed by this module). The payload is first unwrapped as an octet
string; on unwrap failure the code continues with p = NULL, plen = 0,
which the length check then rejects. -/
def oqs_priv_decode (id : Int) (p8 : Option PKCS8_data) : DecodeResult :=
  match p8 with
  | none => { ret := 0, key := none, errs := [] }
  | some d =>
    let pp : List Nat × Nat :=
      match d2i_ASN1_OCTET_STRING d.bytes with
      | none => ([], 0)
      | some oc => (oc, oc.length)
    match d.palg with
    | some ptype =>
      if ptype ≠ V_ASN1_UNDEF then
        { ret := 0, key := none, errs := [ERR_R_FATAL] }
      else
        oqs_priv_decode_rest id pp.1 pp.2
    | none => oqs_priv_decode_rest id pp.1 pp.2

/-- Allocator / erasure events of oqs_priv_encode, in order. -/
inductive MemAction where
  | secureMallocBuf (len : Nat)
  | secureClearFreeBuf (len : Nat)
  | clearFreePenc (len : Nat)
  deriving DecidableEq, Repr

/-- Success or failure of the fallible host calls made by oqs_priv_encode:
the secure allocation of the concatenation buffer, the octet-string
encoding (which allocates), and PKCS8_pkey_set0. -/
structure EncodeEnv where
  secure_malloc_ok : Bool
  i2d_ok : Bool
  set0_ok : Bool
  deriving DecidableEq, Repr

/-- Result of oqs_priv_encode: the 0/1 return code, the PKCS8 container
contents stored on success (payload bytes plus the V_ASN1_UNDEF parameter
type that PKCS8_pkey_set0 records), the error-stack entries pushed, and
the ordered allocator / erasure events. -/
structure EncodeResult where
  ret : Int
  p8 : Option PKCS8_data
  errs : List Nat
  trace : List MemAction
  deriving DecidableEq, Repr

/-- oqs_priv_encode: the encode-private table entry. Concatenates
privkey then pubkey into a secure-allocated buffer, wraps it as an octet
string, stores it into the PKCS8 container with absent parameters. The
match arms mirror the exits of the C function; the record fields are
dereferenced unconditionally by the C, so the arm for a record missing a
field stands for that (unreachable for valid records) path. -/
def oqs_priv_encode (env : EncodeEnv) (key : OQS_KEY) : EncodeResult :=
  match key.s, key.privkey, key.pubkey with
  | some s, some pv, some pb =>
    let buflen := s.priv_key_len + s.pub_key_len
    if env.secure_malloc_ok = false then
      { ret := 0, p8 := none, errs := [ERR_R_MALLOC_FAILURE], trace := [] }
    else
      let buf := pv.take s.priv_key_len ++ pb.take s.pub_key_len
      if env.i2d_ok = false then
        { ret := 0, p8 := none, errs := [ERR_R_MALLOC_FAILURE]
          trace := [MemAction.secureMallocBuf buflen] }
      else
        let penc := i2d_ASN1_OCTET_STRING buf
        if env.set0_ok = false then
          { ret := 0, p8 := none, errs := [ERR_R_MALLOC_FAILURE]
            trace := [MemAction.secureMallocBuf buflen,
                      MemAction.secureClearFreeBuf buflen,
                      MemAction.clearFreePenc penc.length] }
        else
          { ret := 1, p8 := some { bytes := penc, palg := some V_ASN1_UNDEF }
            errs := []
            trace := [MemAction.secureMallocBuf buflen,
                      MemAction.secureClearFreeBuf buflen] }
  | _, _, _ =>
    { ret := 0, p8 := none, errs := [], trace := [] }

/-- pkey_oqs_keygen: allocate a private-capable record, then let the
engine fill both buffers. The external OQS_SIG_keygen is modelled by the
gen parameter: none is an engine failure, some (pv, pb) the generated
material (of which the engine writes exactly the reported lengths into
the two buffers). -/
def pkey_oqs_keygen (id : Int) (gen : Option (List Nat × List Nat)) :
    DecodeResult :=
  match oqs_key_init id oqs_key_type_t.KEY_TYPE_PRIVATE with
  | (none, errs) => { ret := 0, key := none, errs := errs ++ [ERR_R_FATAL] }
  | (some k, errs) =>
    match k.s, gen with
    | some s, some g =>
      { ret := 1
        key := some { k with privkey := some (g.1.take s.priv_key_len)
                             pubkey := some (g.2.take s.pub_key_len) }
        errs := errs }
    | _, _ => { ret := 0, key := none, errs := errs ++ [ERR_R_FATAL] }

/-- Result of pkey_oqs_digestsign: return code, the value left in
*siglen, whether the engine signing operation was invoked, and the
error-stack entries pushed. -/
structure SignResult where
  ret : Int
  siglen : Nat
  engine_sign_called : Bool
  errs : List Nat
  deriving DecidableEq, Repr

/-- pkey_oqs_digestsign: the raw-sign table entry. sig_is_null models the
size-query sentinel (sig == NULL). The external OQS_SIG_sign call is
modelled by engine_sig: none is an engine failure, some outlen a success
writing outlen into *siglen. -/
def pkey_oqs_digestsign (key : Option OQS_KEY) (sig_is_null : Bool)
    (siglen : Nat) (engine_sig : Option Nat) : SignResult :=
  match key with
  | none => { ret := 0, siglen := siglen, engine_sign_called := false
              errs := [ERR_R_FATAL] }
  | some k =>
    match k.s, k.privkey with
    | some s, some _ =>
      if sig_is_null then
        { ret := 1, siglen := s.max_sig_len, engine_sign_called := false
          errs := [] }
      else if siglen < s.max_sig_len then
        { ret := 0, siglen := siglen, engine_sign_called := false
          errs := [ERR_R_FATAL] }
      else
        match engine_sig with
        | some outlen =>
          { ret := 1, siglen := outlen, engine_sign_called := true
            errs := [] }
        | none =>
          { ret := 0, siglen := siglen, engine_sign_called := true
            errs := [ERR_R_FATAL] }
    | _, _ =>
      { ret := 0, siglen := siglen, engine_sign_called := false
        errs := [ERR_R_FATAL] }

/-- View of the X509_ALGOR passed to oqs_item_verify: the NID of its
algorithm object and its parameter type. -/
structure X509_ALGOR_data where
  obj_nid : Int
  ptype : Int
  deriving DecidableEq, Repr

/-- oqs_item_verify: sanity-check that the signature algorithm is the OQS
scheme with absent parameters, then delegate to the generic digest-verify
initializer (modelled by the dvered flag dv_init_ok); returns 2 on
success of the preflight. -/
def oqs_item_verify (sigalg : X509_ALGOR_data) (dv_init_ok : Bool) :
    Int × List Nat :=
  if sigalg.obj_nid ≠ NID_picnicL1FS ∨ sigalg.ptype ≠ V_ASN1_UNDEF then
    (0, [ERR_R_FATAL])
  else if dv_init_ok = false then
    (0, [])
  else
    (2, [])

/-! Helper lemmas shared by the claim theorems. -/

theorem d2i_i2d (x : List Nat) :
    d2i_ASN1_OCTET_STRING (i2d_ASN1_OCTET_STRING x) = some x := by
  simp [d2i_ASN1_OCTET_STRING, i2d_ASN1_OCTET_STRING]

theorem oqs_key_init_picnic_pub :
    oqs_key_init NID_picnicL1FS oqs_key_type_t.KEY_TYPE_PUBLIC =
      (some { s := some picnicL1FS_sig
              pubkey := some (List.replicate 33 0)
              privkey := none }, []) := by
  decide

theorem oqs_key_init_picnic_priv :
    oqs_key_init NID_picnicL1FS oqs_key_type_t.KEY_TYPE_PRIVATE =
      (some { s := some picnicL1FS_sig
              pubkey := some (List.replicate 33 0)
              privkey := some (List.replicate 49 0) }, []) := by
  decide

/-! The claim theorems. -/

/-- Claim C2: for every key record (including a NULL record and any
partially constructed record) the teardown routine oqs_pkey_ctx_free is
safe to call and performs, in order: free the RNG, free the engine,
secure-erase-and-free the private buffer using the private-key length read
from the engine before the engine was freed, then free the public buffer;
on a NULL record it is a no-op. -/
theorem pkey_ctx_free_order :
    oqs_pkey_ctx_free none = [] ∧
    (∀ (k : OQS_KEY) (s : OQS_SIG), k.s = some s →
      oqs_pkey_ctx_free (some k) =
        (if s.rand then [FreeAction.rand_free] else []) ++
        [FreeAction.sig_free] ++
        (if k.privkey.isSome then
          [FreeAction.secure_clear_free_priv s.priv_key_len] else []) ++
        (if k.pubkey.isSome then [FreeAction.pub_free] else []) ++
        [FreeAction.key_free]) ∧
    (∀ (k : OQS_KEY) (len : Nat) (s : OQS_SIG), k.s = some s →
      FreeAction.secure_clear_free_priv len ∈ oqs_pkey_ctx_free (some k) →
      len = s.priv_key_len) := by
  refine ⟨rfl, ?_, ?_⟩
  · rintro ⟨ks, kpub, kpriv⟩ s hs
    cases hs
    cases kpriv <;> cases kpub <;>
      simp [oqs_pkey_ctx_free, List.append_assoc]
  · rintro ⟨ks, kpub, kpriv⟩ len s hs hmem
    cases hs
    cases kpriv <;> cases kpub <;>
      simp [oqs_pkey_ctx_free] at hmem <;>
      rcases hmem with h | h | h <;> simp_all

/-- Witness for C2 at a concrete fully built record. -/
theorem pkey_ctx_free_order_witness :
    oqs_pkey_ctx_free (some { s := some picnicL1FS_sig
                              pubkey := some (List.replicate 33 1)
                              privkey := some (List.replicate 49 2) }) =
      [FreeAction.rand_free, FreeAction.sig_free,
       FreeAction.secure_clear_free_priv 49, FreeAction.pub_free,
       FreeAction.key_free] := by
  have h := pkey_ctx_free_order.2.1
    { s := some picnicL1FS_sig
      pubkey := some (List.replicate 33 1)
      privkey := some (List.replicate 49 2) } picnicL1FS_sig rfl
  simpa [picnicL1FS_sig] using h

/-- Claim C1 (code bug in the source): on the exit path of oqs_priv_encode
where the octet-string encoding of the concatenation buffer fails, the
function returns failure without securely erasing and freeing that
buffer: its event trace holds the secure allocation of the 82-byte buffer
and no secureClearFreeBuf event, contradicting the claim that the buffer
is erased and freed on every exit path. -/
theorem priv_encode_i2d_fail_leaks_secure_buf :
    (oqs_priv_encode { secure_malloc_ok := true, i2d_ok := false, set0_ok := true }
        { s := some picnicL1FS_sig
          pubkey := some (List.replicate 33 1)
          privkey := some (List.replicate 49 2) }).ret = 0 ∧
    (oqs_priv_encode { secure_malloc_ok := true, i2d_ok := false, set0_ok := true }
        { s := some picnicL1FS_sig
          pubkey := some (List.replicate 33 1)
          privkey := some (List.replicate 49 2) }).trace =
      [MemAction.secureMallocBuf 82] := by
  decide

/-- Claim C10: in both decoders a container whose algorithm-identifier
structure is entirely missing is decoded exactly like one whose structure
is present with the explicit absent-parameters marker: the
parameters-must-be-absent check is skipped and decoding proceeds. -/
theorem palg_null_skips_param_check :
    (∀ (id : Int) (kb : Option (List Nat)),
      oqs_pub_decode id (some { key := kb, palg := none }) =
        oqs_pub_decode id (some { key := kb, palg := some V_ASN1_UNDEF })) ∧
    (∀ (id : Int) (bytes : List Nat),
      oqs_priv_decode id (some { bytes := bytes, palg := none }) =
        oqs_priv_decode id (some { bytes := bytes, palg := some V_ASN1_UNDEF })) := by
  constructor
  · intro id kb
    cases kb <;> simp [oqs_pub_decode]
  · intro id bytes
    simp [oqs_priv_decode]

/-- Claim C7 counterexample: the failing path of oqs_pub_decode on which
the container accessor X509_PUBKEY_get0_param fails returns the failure
code with no error pushed onto the host error stack by this module. -/
theorem pub_decode_get0_fail_silent :
    (oqs_pub_decode NID_picnicL1FS none).ret = 0 ∧
    (oqs_pub_decode NID_picnicL1FS none).errs = [] := by
  decide

/-- Claim C7 as amended: every failing path of the public decode, private
decode and item-verify operations reports an error through the host
error-reporting facility before returning, except the paths that merely
propagate a failure already signalled by a host collaborator call (the
container-accessor extraction failure and the generic digest-verify-init
failure). -/
theorem failing_paths_report_amended :
    (∀ (id : Int) (pk : X509_PUBKEY_data),
      (oqs_pub_decode id (some pk)).ret = 0 →
      (oqs_pub_decode id (some pk)).errs ≠ []) ∧
    (∀ (id : Int) (d : PKCS8_data),
      (oqs_priv_decode id (some d)).ret = 0 →
      (oqs_priv_decode id (some d)).errs ≠ []) ∧
    (∀ sigalg : X509_ALGOR_data,
      (oqs_item_verify sigalg true).1 = 0 →
      (oqs_item_verify sigalg true).2 ≠ []) := by
  have hrest_pub : ∀ (id : Int) (p : List Nat),
      (oqs_pub_decode_rest id p).ret = 0 →
      (oqs_pub_decode_rest id p).errs ≠ [] := by
    intro id p
    unfold oqs_pub_decode_rest
    rcases h : oqs_key_init id oqs_key_type_t.KEY_TYPE_PUBLIC with ⟨ko, errs⟩
    cases ko with
    | none => simp
    | some k =>
      cases hks : k.s with
      | none => simp [hks]
      | some s =>
        by_cases hlen : p.length ≠ s.pub_key_len <;> simp [hks, hlen]
  have hrest_priv : ∀ (id : Int) (p : List Nat) (plen : Nat),
      (oqs_priv_decode_rest id p plen).ret = 0 →
      (oqs_priv_decode_rest id p plen).errs ≠ [] := by
    intro id p plen
    unfold oqs_priv_decode_rest
    rcases h : oqs_key_init id oqs_key_type_t.KEY_TYPE_PRIVATE with ⟨ko, errs⟩
    cases ko with
    | none => simp
    | some k =>
      cases hks : k.s with
      | none => simp [hks]
      | some s =>
        by_cases hlen : plen ≠ s.priv_key_len + s.pub_key_len <;>
          simp [hks, hlen]
  refine ⟨?_, ?_, ?_⟩
  · rintro id ⟨kb, palg⟩
    cases kb with
    | none => simp [oqs_pub_decode]
    | some p =>
      cases palg with
      | none => exact hrest_pub id p
      | some pt =>
        by_cases hpt : pt ≠ V_ASN1_UNDEF
        · simp [oqs_pub_decode, hpt]
        · simpa [oqs_pub_decode, hpt] using hrest_pub id p
  · rintro id ⟨bytes, palg⟩
    cases palg with
    | none => exact hrest_priv id _ _
    | some pt =>
      by_cases hpt : pt ≠ V_ASN1_UNDEF
      · simp [oqs_priv_decode, hpt]
      · simpa [oqs_priv_decode, hpt] using hrest_priv id _ _
  · intro sigalg
    by_cases hbad : sigalg.obj_nid ≠ NID_picnicL1FS ∨ sigalg.ptype ≠ V_ASN1_UNDEF <;>
      simp [oqs_item_verify, hbad]

/-- Witness for the amended C7 at a concrete length-mismatch failure. -/
theorem failing_paths_report_amended_witness :
    (oqs_pub_decode NID_picnicL1FS
        (some { key := some [], palg := some V_ASN1_UNDEF })).errs ≠ [] :=
  failing_paths_report_amended.1 NID_picnicL1FS
    { key := some [], palg := some V_ASN1_UNDEF } (by decide)

/-- Claim C3: for every valid private-capable record of the wired
algorithm, decoding the private-key container produced by encoding the
record succeeds and yields privateBytes and publicBytes byte-for-byte
equal to the originals. -/
theorem priv_roundtrip (pv pb : List Nat)
    (hpv : pv.length = picnicL1FS_sig.priv_key_len)
    (hpb : pb.length = picnicL1FS_sig.pub_key_len) :
    (oqs_priv_encode { secure_malloc_ok := true, i2d_ok := true, set0_ok := true }
        { s := some picnicL1FS_sig, pubkey := some pb, privkey := some pv }).ret = 1 ∧
    ∃ d, (oqs_priv_encode { secure_malloc_ok := true, i2d_ok := true, set0_ok := true }
        { s := some picnicL1FS_sig, pubkey := some pb, privkey := some pv }).p8 = some d ∧
      (oqs_priv_decode NID_picnicL1FS (some d)).ret = 1 ∧
      ∃ k, (oqs_priv_decode NID_picnicL1FS (some d)).key = some k ∧
        k.privkey = some pv ∧ k.pubkey = some pb := by
  simp only [picnicL1FS_sig] at hpv hpb
  have htpv : pv.take 49 = pv := by
    rw [← hpv]; exact List.take_length pv
  have htpb : pb.take 33 = pb := by
    rw [← hpb]; exact List.take_length pb
  have h1 : (pv ++ pb).take 49 = pv := by
    rw [← hpv]; exact List.take_left pv pb
  have h2 : (pv ++ pb).drop 49 = pb := by
    rw [← hpv]; exact List.drop_left pv pb
  have henc : oqs_priv_encode
      { secure_malloc_ok := true, i2d_ok := true, set0_ok := true }
      { s := some picnicL1FS_sig, pubkey := some pb, privkey := some pv } =
      { ret := 1
        p8 := some { bytes := i2d_ASN1_OCTET_STRING (pv ++ pb)
                     palg := some V_ASN1_UNDEF }
        errs := []
        trace := [MemAction.secureMallocBuf 82,
                  MemAction.secureClearFreeBuf 82] } := by
    simp [oqs_priv_encode, picnicL1FS_sig, htpv, htpb]
  have hdec : oqs_priv_decode NID_picnicL1FS
      (some { bytes := i2d_ASN1_OCTET_STRING (pv ++ pb)
              palg := some V_ASN1_UNDEF }) =
      { ret := 1
        key := some { s := some picnicL1FS_sig, pubkey := some pb
                      privkey := some pv }
        errs := [] } := by
    have hlen : (pv ++ pb).length = 82 := by
      simp [List.length_append, hpv, hpb]
    simp [oqs_priv_decode, d2i_i2d, oqs_priv_decode_rest,
          oqs_key_init_picnic_priv, picnicL1FS_sig, hlen, h1, h2, htpb]
  refine ⟨?_, { bytes := i2d_ASN1_OCTET_STRING (pv ++ pb)
                palg := some V_ASN1_UNDEF }, ?_, ?_,
          { s := some picnicL1FS_sig, pubkey := some pb, privkey := some pv },
          ?_, rfl, rfl⟩
  · rw [henc]
  · rw [henc]
  · rw [hdec]
  · rw [hdec]

/-- Witness for C3 at a concrete keypair. -/
theorem priv_roundtrip_witness :
    (oqs_priv_encode { secure_malloc_ok := true, i2d_ok := true, set0_ok := true }
        { s := some picnicL1FS_sig, pubkey := some (List.replicate 33 4)
          privkey := some (List.replicate 49 3) }).ret = 1 ∧
    ∃ d, (oqs_priv_encode { secure_malloc_ok := true, i2d_ok := true, set0_ok := true }
        { s := some picnicL1FS_sig, pubkey := some (List.replicate 33 4)
          privkey := some (List.replicate 49 3) }).p8 = some d ∧
      (oqs_priv_decode NID_picnicL1FS (some d)).ret = 1 ∧
      ∃ k, (oqs_priv_decode NID_picnicL1FS (some d)).key = some k ∧
        k.privkey = some (List.replicate 49 3) ∧
        k.pubkey = some (List.replicate 33 4) :=
  priv_roundtrip (List.replicate 49 3) (List.replicate 33 4)
    (by decide) (by decide)

/-- Claim C4: public-key decode with the key bytes present fails exactly
when the algorithm parameters are present with a value other than the
absent marker or the byte length differs from the engine-reported
public-key length; when both checks pass, the bytes are copied into a
newly allocated public-only record and the call succeeds. -/
theorem pub_decode_checks (pk : X509_PUBKEY_data) (p : List Nat)
    (hp : pk.key = some p) :
    (((oqs_pub_decode NID_picnicL1FS (some pk)).ret = 1) ↔
      ((∀ pt, pk.palg = some pt → pt = V_ASN1_UNDEF) ∧
        p.length = picnicL1FS_sig.pub_key_len)) ∧
    ((∀ pt, pk.palg = some pt → pt = V_ASN1_UNDEF) →
      p.length = picnicL1FS_sig.pub_key_len →
      (oqs_pub_decode NID_picnicL1FS (some pk)).key =
        some { s := some picnicL1FS_sig, pubkey := some p, privkey := none }) := by
  obtain ⟨kb, palg⟩ := pk
  dsimp only at hp
  subst hp
  have hrest_succ : p.length = 33 →
      oqs_pub_decode_rest NID_picnicL1FS p =
        { ret := 1
          key := some { s := some picnicL1FS_sig, pubkey := some p
                        privkey := none }
          errs := [] } := by
    intro h
    simp [oqs_pub_decode_rest, oqs_key_init_picnic_pub, picnicL1FS_sig, h]
  have hrest_fail : p.length ≠ 33 →
      oqs_pub_decode_rest NID_picnicL1FS p =
        { ret := 0, key := none, errs := [ERR_R_FATAL] } := by
    intro h
    simp [oqs_pub_decode_rest, oqs_key_init_picnic_pub, picnicL1FS_sig, h]
  cases palg with
  | none =>
    by_cases hlen : p.length = 33
    · simp [oqs_pub_decode, hrest_succ hlen, hlen, picnicL1FS_sig]
    · simp [oqs_pub_decode, hrest_fail hlen, hlen, picnicL1FS_sig]
  | some pt =>
    by_cases hpt : pt = V_ASN1_UNDEF
    · subst hpt
      by_cases hlen : p.length = 33
      · simp [oqs_pub_decode, hrest_succ hlen, hlen, picnicL1FS_sig]
      · simp [oqs_pub_decode, hrest_fail hlen, hlen, picnicL1FS_sig]
    · simp [oqs_pub_decode, hpt]

/-- Witness for C4 at a concrete well-formed container. -/
theorem pub_decode_checks_witness :
    (oqs_pub_decode NID_picnicL1FS
        (some { key := some (List.replicate 33 5)
                palg := some V_ASN1_UNDEF })).key =
      some { s := some picnicL1FS_sig, pubkey := some (List.replicate 33 5)
             privkey := none } :=
  (pub_decode_checks
      { key := some (List.replicate 33 5), palg := some V_ASN1_UNDEF }
      (List.replicate 33 5) rfl).2
    (fun pt h => (Option.some.inj h).symm) (by decide)

/-- Claim C5: private-key decode with absent-or-valid parameters fails
exactly when the unwrapped octet-string payload length differs from the
sum of the engine-reported private-key and public-key lengths; on a match
the payload is split at the private-key-length boundary, the first part
into privateBytes and the second into publicBytes. -/
theorem priv_decode_split (d : PKCS8_data) (oc : List Nat)
    (hoc : d2i_ASN1_OCTET_STRING d.bytes = some oc)
    (hpa : ∀ pt, d.palg = some pt → pt = V_ASN1_UNDEF) :
    (((oqs_priv_decode NID_picnicL1FS (some d)).ret = 1) ↔
      oc.length = picnicL1FS_sig.priv_key_len + picnicL1FS_sig.pub_key_len) ∧
    (oc.length = picnicL1FS_sig.priv_key_len + picnicL1FS_sig.pub_key_len →
      (oqs_priv_decode NID_picnicL1FS (some d)).key =
        some { s := some picnicL1FS_sig
               pubkey := some (oc.drop picnicL1FS_sig.priv_key_len)
               privkey := some (oc.take picnicL1FS_sig.priv_key_len) }) := by
  obtain ⟨bytes, palg⟩ := d
  dsimp only at hoc hpa
  have hrest_succ : oc.length = 82 →
      oqs_priv_decode_rest NID_picnicL1FS oc 82 =
        { ret := 1
          key := some { s := some picnicL1FS_sig
                        pubkey := some (oc.drop 49)
                        privkey := some (oc.take 49) }
          errs := [] } := by
    intro h
    have hdt : (oc.drop 49).take 33 = oc.drop 49 :=
      List.take_of_length_le (by simp [List.length_drop, h])
    simp [oqs_priv_decode_rest, oqs_key_init_picnic_priv, picnicL1FS_sig,
          h, hdt]
  have hrest_fail : oc.length ≠ 82 →
      oqs_priv_decode_rest NID_picnicL1FS oc oc.length =
        { ret := 0, key := none, errs := [ERR_R_FATAL] } := by
    intro h
    simp [oqs_priv_decode_rest, oqs_key_init_picnic_priv, picnicL1FS_sig, h]
  cases palg with
  | none =>
    by_cases hlen : oc.length = 82
    · simp [oqs_priv_decode, hoc, hrest_succ hlen, hlen, picnicL1FS_sig]
    · simp [oqs_priv_decode, hoc, hrest_fail hlen, hlen, picnicL1FS_sig]
  | some pt =>
    have hpt : pt = V_ASN1_UNDEF := hpa pt rfl
    subst hpt
    by_cases hlen : oc.length = 82
    · simp [oqs_priv_decode, hoc, hrest_succ hlen, hlen, picnicL1FS_sig]
    · simp [oqs_priv_decode, hoc, hrest_fail hlen, hlen, picnicL1FS_sig]

/-- Witness for C5 at a concrete container of the exact expected length. -/
theorem priv_decode_split_witness :
    (oqs_priv_decode NID_picnicL1FS
        (some { bytes := i2d_ASN1_OCTET_STRING (List.replicate 82 6)
                palg := none })).key =
      some { s := some picnicL1FS_sig
             pubkey := some ((List.replicate 82 6).drop 49)
             privkey := some ((List.replicate 82 6).take 49) } :=
  (priv_decode_split
      { bytes := i2d_ASN1_OCTET_STRING (List.replicate 82 6), palg := none }
      (List.replicate 82 6) (d2i_i2d (List.replicate 82 6))
      (fun pt h => by cases h)).2 (by decide)

/-- Claim C6: for every NID other than the one recognized identifier, key
allocation fails with an error pushed to the host error stack and no
record is constructed, and therefore public decode, private decode and
keygen with that NID all fail without assigning a key. -/
theorem unsupported_alg_rejected (nid : Int) (h : nid ≠ NID_picnicL1FS) :
    (∀ kt, oqs_key_init nid kt = (none, [ERR_R_FATAL])) ∧
    (∀ pub, (oqs_pub_decode nid pub).ret ≠ 1 ∧
      (oqs_pub_decode nid pub).key = none) ∧
    (∀ p8, (oqs_priv_decode nid p8).ret ≠ 1 ∧
      (oqs_priv_decode nid p8).key = none) ∧
    (∀ gen, (pkey_oqs_keygen nid gen).ret ≠ 1 ∧
      (pkey_oqs_keygen nid gen).key = none) := by
  have hinit : ∀ kt, oqs_key_init nid kt = (none, [ERR_R_FATAL]) := by
    intro kt
    rw [oqs_key_init, get_oqs_alg_id, if_neg h]
    norm_num [OQS_SIG_new, OQS_SIG_alg_picnic_L1_FS]
  have hrest_pub : ∀ p, oqs_pub_decode_rest nid p =
      { ret := 0, key := none, errs := [ERR_R_FATAL, ERR_R_FATAL] } := by
    intro p
    simp [oqs_pub_decode_rest, hinit]
  have hrest_priv : ∀ p plen, oqs_priv_decode_rest nid p plen =
      { ret := 0, key := none, errs := [ERR_R_FATAL, ERR_R_FATAL] } := by
    intro p plen
    simp [oqs_priv_decode_rest, hinit]
  refine ⟨hinit, ?_, ?_, ?_⟩
  · rintro (_ | ⟨kb, palg⟩)
    · simp [oqs_pub_decode]
    · cases kb with
      | none => simp [oqs_pub_decode]
      | some p =>
        cases palg with
        | none => simp [oqs_pub_decode, hrest_pub]
        | some pt =>
          by_cases hpt : pt ≠ V_ASN1_UNDEF <;>
            simp [oqs_pub_decode, hpt, hrest_pub]
  · rintro (_ | ⟨bytes, palg⟩)
    · simp [oqs_priv_decode]
    · cases palg with
      | none => simp [oqs_priv_decode, hrest_priv]
      | some pt =>
        by_cases hpt : pt ≠ V_ASN1_UNDEF <;>
          simp [oqs_priv_decode, hpt, hrest_priv]
  · intro gen
    simp [pkey_oqs_keygen, hinit]

/-- Witness for C6 at the concrete unknown NID 0. -/
theorem unsupported_alg_rejected_witness :
    oqs_key_init 0 oqs_key_type_t.KEY_TYPE_PRIVATE = (none, [ERR_R_FATAL]) :=
  (unsupported_alg_rejected 0 (by decide)).1 oqs_key_type_t.KEY_TYPE_PRIVATE

/-- Claim C8: for every private-capable record, the sign entry invoked
with the size-query sentinel (sig == NULL) returns success, reports the
engine-reported maximum signature length in *siglen, and does not invoke
the engine signing operation. -/
theorem digestsign_size_query (k : OQS_KEY) (s : OQS_SIG) (hs : k.s = some s)
    (hpriv : k.privkey.isSome = true) (siglen : Nat) (eng : Option Nat) :
    pkey_oqs_digestsign (some k) true siglen eng =
      { ret := 1, siglen := s.max_sig_len, engine_sign_called := false
        errs := [] } := by
  obtain ⟨ks, kpub, kpriv⟩ := k
  dsimp only at hs hpriv
  subst hs
  cases kpriv with
  | none => simp at hpriv
  | some pv => simp [pkey_oqs_digestsign]

/-- Witness for C8 at a concrete private-capable record. -/
theorem digestsign_size_query_witness :
    pkey_oqs_digestsign
        (some { s := some picnicL1FS_sig
                pubkey := some (List.replicate 33 1)
                privkey := some (List.replicate 49 2) }) true 0 none =
      { ret := 1, siglen := 34036, engine_sign_called := false
        errs := [] } := by
  have h := digestsign_size_query
    { s := some picnicL1FS_sig
      pubkey := some (List.replicate 33 1)
      privkey := some (List.replicate 49 2) } picnicL1FS_sig rfl rfl 0 none
  simpa [picnicL1FS_sig] using h

/-- Claim C9: every record produced by any construction path (allocation,
public decode, private decode, keygen) that has privateBytes present also
has publicBytes present. -/
theorem priv_implies_pub :
    (∀ (nid : Int) (kt : oqs_key_type_t) (k : OQS_KEY),
      (oqs_key_init nid kt).1 = some k →
      k.privkey.isSome = true → k.pubkey.isSome = true) ∧
    (∀ (id : Int) (pub : Option X509_PUBKEY_data) (k : OQS_KEY),
      (oqs_pub_decode id pub).key = some k →
      k.privkey.isSome = true → k.pubkey.isSome = true) ∧
    (∀ (id : Int) (p8 : Option PKCS8_data) (k : OQS_KEY),
      (oqs_priv_decode id p8).key = some k →
      k.privkey.isSome = true → k.pubkey.isSome = true) ∧
    (∀ (id : Int) (gen : Option (List Nat × List Nat)) (k : OQS_KEY),
      (pkey_oqs_keygen id gen).key = some k →
      k.privkey.isSome = true → k.pubkey.isSome = true) := by
  have hinit : ∀ (nid : Int) (kt : oqs_key_type_t) (k : OQS_KEY),
      (oqs_key_init nid kt).1 = some k → k.pubkey.isSome = true := by
    intro nid kt k h
    unfold oqs_key_init at h
    cases hn : OQS_SIG_new (get_oqs_alg_id nid) with
    | none => rw [hn] at h; simp at h
    | some s =>
      rw [hn] at h
      by_cases hkt : kt = oqs_key_type_t.KEY_TYPE_PRIVATE <;>
        simp [hkt] at h <;> subst h <;> simp
  have hrest_pub : ∀ (id : Int) (p : List Nat) (k : OQS_KEY),
      (oqs_pub_decode_rest id p).key = some k → k.pubkey.isSome = true := by
    intro id p k h
    unfold oqs_pub_decode_rest at h
    rcases hi : oqs_key_init id oqs_key_type_t.KEY_TYPE_PUBLIC with ⟨ko, errs⟩
    rw [hi] at h
    cases ko with
    | none => simp at h
    | some k0 =>
      cases hks : k0.s with
      | none => simp [hks] at h
      | some s =>
        by_cases hlen : p.length ≠ s.pub_key_len
        · simp [hks, hlen] at h
        · simp [hks, hlen] at h
          subst h
          simp
  have hrest_priv : ∀ (id : Int) (p : List Nat) (plen : Nat) (k : OQS_KEY),
      (oqs_priv_decode_rest id p plen).key = some k →
      k.pubkey.isSome = true := by
    intro id p plen k h
    unfold oqs_priv_decode_rest at h
    rcases hi : oqs_key_init id oqs_key_type_t.KEY_TYPE_PRIVATE with ⟨ko, errs⟩
    rw [hi] at h
    cases ko with
    | none => simp at h
    | some k0 =>
      cases hks : k0.s with
      | none => simp [hks] at h
      | some s =>
        by_cases hlen : plen ≠ s.priv_key_len + s.pub_key_len
        · simp [hks, hlen] at h
        · simp [hks, hlen] at h
          subst h
          simp
  refine ⟨fun nid kt k h _ => hinit nid kt k h, ?_, ?_, ?_⟩
  · rintro id (_ | ⟨kb, palg⟩) k h _
    · simp [oqs_pub_decode] at h
    · cases kb with
      | none => simp [oqs_pub_decode] at h
      | some p =>
        cases palg with
        | none => exact hrest_pub id p k h
        | some pt =>
          by_cases hpt : pt ≠ V_ASN1_UNDEF
          · simp [oqs_pub_decode, hpt] at h
          · rw [oqs_pub_decode] at h
            simp only [hpt, ite_false, if_neg] at h
            exact hrest_pub id p k (by simpa [hpt] using h)
  · rintro id (_ | ⟨bytes, palg⟩) k h _
    · simp [oqs_priv_decode] at h
    · cases palg with
      | none => exact hrest_priv id _ _ k h
      | some pt =>
        by_cases hpt : pt ≠ V_ASN1_UNDEF
        · simp [oqs_priv_decode, hpt] at h
        · exact hrest_priv id _ _ k (by simpa [oqs_priv_decode, hpt] using h)
  · intro id gen k h _
    unfold pkey_oqs_keygen at h
    rcases hi : oqs_key_init id oqs_key_type_t.KEY_TYPE_PRIVATE with ⟨ko, errs⟩
    rw [hi] at h
    cases ko with
    | none => simp at h
    | some k0 =>
      cases hks : k0.s with
      | none => cases gen <;> simp [hks] at h
      | some s =>
        cases gen with
        | none => simp [hks] at h
        | some g =>
          simp [hks] at h
          subst h
          simp

/-- Witness for C9 at the record built by a concrete allocation. -/
theorem priv_implies_pub_witness :
    ({ s := some picnicL1FS_sig
       pubkey := some (List.replicate 33 0)
       privkey := some (List.replicate 49 0) } : OQS_KEY).pubkey.isSome = true :=
  priv_implies_pub.1 NID_picnicL1FS oqs_key_type_t.KEY_TYPE_PRIVATE
    { s := some picnicL1FS_sig
      pubkey := some (List.replicate 33 0)
      privkey := some (List.replicate 49 0) } (by decide) (by decide)

end OQS
